import Mathlib

set_option autoImplicit false

/-!
Verification development for the incremental markdown-analysis pipeline
(`notes-to-brightspace-quiz.py`).  The Python source is shallowly embedded:

* `json_loads` models Python's `json.loads` (a recursive-descent parser over
  the JSON grammar with Python's default extensions `NaN`/`Infinity`,
  strictness about control characters in strings, and "extra data" rejection).
  Numbers are kept as their lexemes, which is lossless for the claims here.
  One tolerance: a lone `\uXXXX` surrogate escape, which Python keeps as a
  lone surrogate code unit, becomes `Char.ofNat` of the code (Lean `Char`
  cannot hold surrogates); no claim touches that corner.
* The tokenizer (`tiktoken` `cl100k_base`) is an external library, so the
  chunker is parameterized by an encode/decode pair.
* The HTTP gateway is modelled by an oracle giving each attempt's outcome
  (`Outcome.ok s` = a 2xx response whose body yields text `s`;
  `Outcome.err` = a `requests.RequestException`).
* The results directory is a value-level store `String → Option Stored`;
  `json.dump` serialization formatting is outside the claims' scope.
-/

/-- Python values produced by `json.loads`: null, booleans, numbers (kept as
their matched lexeme), strings, arrays, objects (key/value list in parse
order). -/
inductive Json where
  | null : Json
  | boolTrue : Json
  | boolFalse : Json
  | num (lexeme : String) : Json
  | str (s : String) : Json
  | arr (xs : List Json) : Json
  | obj (kvs : List (String × Json)) : Json

/-- The double-quote character. -/
def dquote : Char := Char.ofNat 34

/-- The opening curly bracket character. -/
def lbrace : Char := Char.ofNat 123

/-- The closing curly bracket character. -/
def rbrace : Char := Char.ofNat 125

/-- JSON whitespace, as in Python's `json.decoder.WHITESPACE` (space, tab,
newline, carriage return). -/
def isJsonWs (c : Char) : Bool :=
  c = ' ' || c = Char.ofNat 9 || c = Char.ofNat 10 || c = Char.ofNat 13

/-- Skip leading JSON whitespace. -/
def skipWs : List Char → List Char
  | [] => []
  | c :: cs => if isJsonWs c then skipWs cs else c :: cs

/-- Value of one hexadecimal digit, if any. -/
def hexVal (c : Char) : Option Nat :=
  if '0' ≤ c ∧ c ≤ '9' then some (c.toNat - '0'.toNat)
  else if 'a' ≤ c ∧ c ≤ 'f' then some (c.toNat - 'a'.toNat + 10)
  else if 'A' ≤ c ∧ c ≤ 'F' then some (c.toNat - 'A'.toNat + 10)
  else none

/-- Value of a four-hex-digit group, if all four are hex digits. -/
def hex4 (a b c d : Char) : Option Nat :=
  match hexVal a, hexVal b, hexVal c, hexVal d with
  | some x, some y, some z, some w => some (((x * 16 + y) * 16 + z) * 16 + w)
  | _, _, _, _ => none

/-- Body of a JSON string after the opening quote, as in Python's
`py_scanstring` with `strict=True`: escapes, `\uXXXX` with surrogate-pair
combination, and rejection of raw control characters below 0x20.  The fuel
argument only bounds recursion depth; callers supply `length + 1`, which is
always sufficient since every step consumes at least one character. -/
def parseStringAux : Nat → List Char → List Char → Option (String × List Char)
  | 0, _, _ => none
  | _, _, [] => none
  | fuel + 1, acc, c :: cs =>
    if c = dquote then some (String.mk acc.reverse, cs)
    else if c = '\\' then
      match cs with
      | [] => none
      | e :: cs2 =>
        if e = dquote then parseStringAux fuel (dquote :: acc) cs2
        else if e = '\\' then parseStringAux fuel ('\\' :: acc) cs2
        else if e = '/' then parseStringAux fuel ('/' :: acc) cs2
        else if e = 'b' then parseStringAux fuel (Char.ofNat 8 :: acc) cs2
        else if e = 'f' then parseStringAux fuel (Char.ofNat 12 :: acc) cs2
        else if e = 'n' then parseStringAux fuel (Char.ofNat 10 :: acc) cs2
        else if e = 'r' then parseStringAux fuel (Char.ofNat 13 :: acc) cs2
        else if e = 't' then parseStringAux fuel (Char.ofNat 9 :: acc) cs2
        else if e = 'u' then
          match cs2 with
          | h1 :: h2 :: h3 :: h4 :: cs3 =>
            match hex4 h1 h2 h3 h4 with
            | none => none
            | some n =>
              if 0xD800 ≤ n ∧ n < 0xDC00 then
                match cs3 with
                | b1 :: b2 :: h5 :: h6 :: h7 :: h8 :: cs4 =>
                  if b1 = '\\' ∧ b2 = 'u' then
                    match hex4 h5 h6 h7 h8 with
                    | some m =>
                      if 0xDC00 ≤ m ∧ m < 0xE000 then
                        parseStringAux fuel
                          (Char.ofNat (0x10000 + (n - 0xD800) * 0x400 + (m - 0xDC00)) :: acc) cs4
                      else parseStringAux fuel (Char.ofNat n :: acc) cs3
                    | none => parseStringAux fuel (Char.ofNat n :: acc) cs3
                  else parseStringAux fuel (Char.ofNat n :: acc) cs3
                | cs3' => parseStringAux fuel (Char.ofNat n :: acc) cs3'
              else parseStringAux fuel (Char.ofNat n :: acc) cs3
          | _ => none
        else none
    else if c.toNat < 0x20 then none
    else parseStringAux fuel (c :: acc) cs

/-- Fraction part of a JSON number: a dot followed by at least one digit;
otherwise contributes nothing (regex partial-match semantics). -/
def parseFrac (cs : List Char) : List Char × List Char :=
  match cs with
  | '.' :: u =>
    let ds := u.takeWhile Char.isDigit
    if ds = [] then ([], cs) else ('.' :: ds, u.dropWhile Char.isDigit)
  | _ => ([], cs)

/-- Exponent part of a JSON number: `e`/`E`, optional sign, at least one
digit; otherwise contributes nothing. -/
def parseExp (cs : List Char) : List Char × List Char :=
  match cs with
  | e :: u =>
    if e = 'e' ∨ e = 'E' then
      match u with
      | s :: v =>
        if s = '+' ∨ s = '-' then
          let ds := v.takeWhile Char.isDigit
          if ds = [] then ([], cs) else (e :: s :: ds, v.dropWhile Char.isDigit)
        else
          let ds := u.takeWhile Char.isDigit
          if ds = [] then ([], cs) else (e :: ds, u.dropWhile Char.isDigit)
      | [] => ([], cs)
    else ([], cs)
  | [] => ([], cs)

/-- A JSON number per Python's `NUMBER_RE`:
`-?(0|[1-9][0-9]*)(\.[0-9]+)?([eE][+-]?[0-9]+)?`, returned as its lexeme. -/
def parseNumber (cs : List Char) : Option (String × List Char) :=
  let signAndRest : List Char × List Char :=
    match cs with
    | '-' :: t => (['-'], t)
    | _ => ([], cs)
  match signAndRest.2 with
  | [] => none
  | d :: t =>
    if d = '0' then
      let f := parseFrac t
      let e := parseExp f.2
      some (String.mk (signAndRest.1 ++ [d] ++ f.1 ++ e.1), e.2)
    else if d.isDigit then
      let ds := t.takeWhile Char.isDigit
      let t2 := t.dropWhile Char.isDigit
      let f := parseFrac t2
      let e := parseExp f.2
      some (String.mk (signAndRest.1 ++ (d :: ds) ++ f.1 ++ e.1), e.2)
    else none

/-- Match a literal word as a prefix, returning the rest of the input. -/
def matchLit (lit : String) (cs : List Char) : Option (List Char) :=
  if lit.data.isPrefixOf cs then some (cs.drop lit.length) else none

/-- Parser modes: one JSON value, the element list of a non-empty array
(after the opening bracket and whitespace), or the member list of a
non-empty object (after the opening brace and whitespace). -/
inductive PMode where
  | value : PMode
  | arrElems : PMode
  | objMembers : PMode

/-- Parser results, one constructor per mode. -/
inductive POut where
  | val (j : Json) : POut
  | elems (l : List Json) : POut
  | members (l : List (String × Json)) : POut

/-- Core recursive-descent parser mirroring Python's `JSONDecoder.scan_once`
(`value` mode), `JSONArray` (`arrElems`) and `JSONObject` (`objMembers`).
The fuel argument only bounds recursion depth; `json_loads` supplies more
fuel than any input can consume (every two nested calls consume at least one
input character). -/
def parseCore : Nat → PMode → List Char → Option (POut × List Char)
  | 0, _, _ => none
  | fuel + 1, PMode.value, cs =>
    let cs1 := skipWs cs
    match cs1 with
    | [] => none
    | c :: rest =>
      if c = dquote then
        match parseStringAux (rest.length + 1) [] rest with
        | some (s, r) => some (POut.val (Json.str s), r)
        | none => none
      else if c = lbrace then
        let r1 := skipWs rest
        match r1 with
        | [] => none
        | d :: r2 =>
          if d = rbrace then some (POut.val (Json.obj []), r2)
          else
            match parseCore fuel PMode.objMembers r1 with
            | some (POut.members kvs, r3) => some (POut.val (Json.obj kvs), r3)
            | _ => none
      else if c = '[' then
        let r1 := skipWs rest
        match r1 with
        | [] => none
        | d :: r2 =>
          if d = ']' then some (POut.val (Json.arr []), r2)
          else
            match parseCore fuel PMode.arrElems r1 with
            | some (POut.elems xs, r3) => some (POut.val (Json.arr xs), r3)
            | _ => none
      else
        match matchLit "null" cs1 with
        | some r => some (POut.val Json.null, r)
        | none =>
        match matchLit "true" cs1 with
        | some r => some (POut.val Json.boolTrue, r)
        | none =>
        match matchLit "false" cs1 with
        | some r => some (POut.val Json.boolFalse, r)
        | none =>
        match parseNumber cs1 with
        | some (lex, r) => some (POut.val (Json.num lex), r)
        | none =>
        match matchLit "NaN" cs1 with
        | some r => some (POut.val (Json.num "NaN"), r)
        | none =>
        match matchLit "Infinity" cs1 with
        | some r => some (POut.val (Json.num "Infinity"), r)
        | none =>
        match matchLit "-Infinity" cs1 with
        | some r => some (POut.val (Json.num "-Infinity"), r)
        | none => none
  | fuel + 1, PMode.arrElems, cs =>
    match parseCore fuel PMode.value cs with
    | some (POut.val v, r1) =>
      (match skipWs r1 with
       | [] => none
       | m :: r2 =>
         if m = ',' then
           match parseCore fuel PMode.arrElems r2 with
           | some (POut.elems vs, r3) => some (POut.elems (v :: vs), r3)
           | _ => none
         else if m = ']' then some (POut.elems [v], r2)
         else none)
    | _ => none
  | fuel + 1, PMode.objMembers, cs =>
    match cs with
    | [] => none
    | c :: rest =>
      if c = dquote then
        match parseStringAux (rest.length + 1) [] rest with
        | some (key, r1) =>
          (match skipWs r1 with
           | [] => none
           | k :: r3 =>
             if k = ':' then
               match parseCore fuel PMode.value r3 with
               | some (POut.val v, r4) =>
                 (match skipWs r4 with
                  | [] => none
                  | m :: r6 =>
                    if m = ',' then
                      match parseCore fuel PMode.objMembers (skipWs r6) with
                      | some (POut.members kvs, r7) => some (POut.members ((key, v) :: kvs), r7)
                      | _ => none
                    else if m = rbrace then some (POut.members [(key, v)], r6)
                    else none)
               | _ => none
             else none)
        | none => none
      else none

/-- Model of Python's `json.loads`: parse one value (leading whitespace
allowed), then require only whitespace to remain ("Extra data" otherwise).
Returns `none` exactly when `json.loads` raises `JSONDecodeError`. -/
def json_loads (s : String) : Option Json :=
  match parseCore (2 * s.length + 4) PMode.value s.data with
  | some (POut.val v, rest) => if skipWs rest = [] then some v else none
  | _ => none

/-- Coercion of the raw quiz response, as in `analyze_content` lines 190-194:
`json.loads` on success is returned verbatim (no shape check in the source);
on `JSONDecodeError` the fallback is the single record
`[{question: raw, options: [], correct_answer: ""}]`. -/
def coerce_quiz (raw : String) : Json :=
  match json_loads raw with
  | some v => v
  | none =>
    Json.arr [Json.obj
      [("question", Json.str raw), ("options", Json.arr []), ("correct_answer", Json.str "")]]

/-- Coercion of the raw concepts response, as in `analyze_content` lines
204-208: verbatim on parse success, else the single record
`[{term: raw, category: "uncategorized"}]`. -/
def coerce_concepts (raw : String) : Json :=
  match json_loads raw with
  | some v => v
  | none =>
    Json.arr [Json.obj [("term", Json.str raw), ("category", Json.str "uncategorized")]]

/-- Fueled form of Python's `range(start, stop, step)` index list.  The fuel
only bounds the number of produced indices; `rangeStep` supplies
`stop - start`, which is always enough since each step advances `start` by
`step ≥ 1` (and for `step = 0` the condition is false anyway). -/
def rangeStepGo : Nat → Nat → Nat → Nat → List Nat
  | 0, _, _, _ => []
  | fuel + 1, start, stop, step =>
    if start < stop ∧ 0 < step then start :: rangeStepGo fuel (start + step) stop step
    else []

/-- The index list of Python's `range(start, stop, step)` for a positive
step: `start, start+step, ...` while below `stop` (empty when `step = 0`,
where Python instead raises `ValueError`). -/
def rangeStep (start stop step : Nat) : List Nat :=
  rangeStepGo (stop - start) start stop step

/-- The token windows `tokens[i : i + chunk_size]` for
`i in range(0, len(tokens), chunk_size)` taken by
`split_text_into_chunks` (lines 159-161). -/
def tokenWindows (chunk_size : Nat) (tokens : List Nat) : List (List Nat) :=
  (rangeStep 0 tokens.length chunk_size).map (fun i => (tokens.drop i).take chunk_size)

/-- `split_text_into_chunks` (lines 155-162), parameterized by the tokenizer
(`tiktoken` `cl100k_base` in the source): encode, slice the token list into
windows of `chunk_size`, decode each window. -/
def split_text_into_chunks (enc : String → List Nat) (dec : List Nat → String)
    (text : String) (chunk_size : Nat) : List String :=
  (tokenWindows chunk_size (enc text)).map dec

/-- Outcome of one HTTP attempt inside `query_ollama`: `ok s` is a response
that passes `raise_for_status` and yields `response.json().get("response", "")
= s`; `err` is a raised `requests.RequestException`. -/
inductive Outcome where
  | ok (s : String) : Outcome
  | err : Outcome

/-- Log events emitted by `query_ollama`: the warning for a failed attempt
(1-based attempt number, line 148) and the final error after exhausting all
retries (line 152).  A successful attempt emits nothing. -/
inductive LogEvent where
  | warnFail (attempt : Nat) : LogEvent
  | errorExhausted (retries : Nat) : LogEvent

/-- The `for attempt in range(retries)` loop of `query_ollama` (lines
134-153), iterating over the remaining attempt indices.  Returns the result
(`none` models Python's implicit `None` when the loop body never runs), the
log events in order, and the `time.sleep` durations (seconds) in order:
`2 ** attempt` before each retry. -/
def query_loop (oracle : Nat → Outcome) (retries : Nat) :
    List Nat → Option String × List LogEvent × List Nat
  | [] => (none, [], [])
  | attempt :: rest =>
    match oracle attempt with
    | Outcome.ok s => (some s, [], [])
    | Outcome.err =>
      if attempt < retries - 1 then
        let r := query_loop oracle retries rest
        (r.1, LogEvent.warnFail (attempt + 1) :: r.2.1, 2 ^ attempt :: r.2.2)
      else (some "", [LogEvent.warnFail (attempt + 1), LogEvent.errorExhausted retries], [])

/-- `query_ollama` (lines 132-153).  The prompt does not influence control
flow (it only forms the request body); the oracle gives each attempt's
transport outcome. -/
def query_ollama (oracle : Nat → Outcome) (_prompt : String) (retries : Nat) :
    Option String × List LogEvent × List Nat :=
  query_loop oracle retries (List.range retries)

/-- The per-chunk summarization prompt (lines 172-175). -/
def summaryPromptFor (chunk : String) : String :=
  "Analyze the following study notes and provide a detailed summary " ++
  "focusing on key points and main ideas:\n\n" ++ chunk

/-- The quiz-generation prompt (lines 183-187) - a fixed string; note the
source never concatenates the summary or the document into it. -/
def quizPromptText : String :=
  "Based on the content, generate 5 multiple choice questions. " ++
  "Format each question as a JSON object with \x27question\x27, \x27options\x27 (array), " ++
  "and \x27correct_answer\x27 fields."

/-- The concept-extraction prompt (lines 197-201) - likewise a fixed string
with no summary or document text in it. -/
def conceptPromptText : String :=
  "Extract and list all key terms, concepts, products, services, and acronyms " ++
  "from the content. Format the response as a JSON array of objects with \x27term\x27 " ++
  "and \x27category\x27 fields."

/-- The summary dictionary returned by `analyze_content` (lines 210-214). -/
structure SummaryData where
  summary : String
  length : Nat
  chunks_processed : Nat
deriving DecidableEq

/-- Return value of `analyze_content`, plus the trace of prompts sent to the
gateway (one `query_ollama` call per trace element, in program order). -/
structure AnalysisResult where
  summary_data : SummaryData
  quiz_questions : Json
  concepts : Json
  prompts : List String

/-- `analyze_content` (lines 164-214).  `gw prompt` abstracts
`query_ollama(prompt)` with the default `retries = 3`, which always returns a
string (see the retry theorems below).  Chunking uses the default
`chunk_size = 1500`.  Per-chunk summaries that come back empty are dropped
(`if summary:`), the rest are newline-joined; the quiz and concept prompts
are the fixed strings above and their raw responses go through the coercers. -/
def analyze_content (enc : String → List Nat) (dec : List Nat → String)
    (gw : String → String) (content : String) : AnalysisResult :=
  let chunks := split_text_into_chunks enc dec content 1500
  let summaries := (chunks.map (fun c => gw (summaryPromptFor c))).filter (fun s => s ≠ "")
  let full_summary := String.intercalate "\n" summaries
  let quiz_response := gw quizPromptText
  let quiz_questions := coerce_quiz quiz_response
  let concept_response := gw conceptPromptText
  let concepts := coerce_concepts concept_response
  { summary_data :=
      { summary := full_summary, length := content.length, chunks_processed := chunks.length }
    quiz_questions := quiz_questions
    concepts := concepts
    prompts := chunks.map summaryPromptFor ++ [quizPromptText, conceptPromptText] }

/-- A value persisted by `json.dump`: either the summary dictionary or a
coerced quiz/concepts value (serialization formatting is out of scope, so the
store holds the dumped value itself). -/
inductive Stored where
  | summ (d : SummaryData) : Stored
  | doc (j : Json) : Stored

/-- The results directory as a mapping from file path to stored value;
`none` means the file does not exist. -/
def Store : Type := String → Option Stored

/-- Path of `{base_name}_summary.json` under the results directory. -/
def summary_path (results_dir base_name : String) : String :=
  results_dir ++ "/" ++ base_name ++ "_summary.json"

/-- Path of `{base_name}_quiz.json` under the results directory. -/
def quiz_path (results_dir base_name : String) : String :=
  results_dir ++ "/" ++ base_name ++ "_quiz.json"

/-- Path of `{base_name}_concepts.json` under the results directory. -/
def concept_path (results_dir base_name : String) : String :=
  results_dir ++ "/" ++ base_name ++ "_concepts.json"

/-- A markdown file found by `notes_dir.rglob("*.md")`: its directory
components below the notes directory, and its stem (`Path.stem`, the
filename with the `.md` extension stripped — directories are not part of
the stem). -/
structure MdFile where
  parent : List String
  stem : String
deriving DecidableEq

/-- `check_existing_results` (lines 124-130): true iff all three artifact
files keyed by the file's stem exist. -/
def check_existing_results (results_dir : String) (fs : Store) (stem : String) : Bool :=
  (fs (summary_path results_dir stem)).isSome &&
  (fs (quiz_path results_dir stem)).isSome &&
  (fs (concept_path results_dir stem)).isSome

/-- The three `json.dump` writes of `process_files` (lines 234-250), keyed by
the file's stem. -/
def write_results (results_dir : String) (fs : Store) (stem : String)
    (r : AnalysisResult) : Store :=
  fun p =>
    if p = summary_path results_dir stem then some (Stored.summ r.summary_data)
    else if p = quiz_path results_dir stem then some (Stored.doc r.quiz_questions)
    else if p = concept_path results_dir stem then some (Stored.doc r.concepts)
    else fs p

/-- `process_files` (lines 216-252) over the list returned by
`get_markdown_files`, in order: skip when `check_existing_results` is true;
read the file (`readFile`, which models `read_markdown_file` and returns `""`
on a read error); skip without writing when the content is empty
(`if not content`); otherwise analyze and persist all three artifacts.
Returns the final store and the concatenated gateway prompt trace. -/
def process_files (enc : String → List Nat) (dec : List Nat → String)
    (gw : String → String) (results_dir : String) (readFile : MdFile → String) :
    List MdFile → Store → Store × List String
  | [], fs => (fs, [])
  | f :: rest, fs =>
    if check_existing_results results_dir fs f.stem then
      process_files enc dec gw results_dir readFile rest fs
    else
      let content := readFile f
      if content = "" then process_files enc dec gw results_dir readFile rest fs
      else
        let r := analyze_content enc dec gw content
        let step := process_files enc dec gw results_dir readFile rest
          (write_results results_dir fs f.stem r)
        (step.1, r.prompts ++ step.2)

/-- Fuel irrelevance for `rangeStepGo`: any two sufficient fuels agree. -/
theorem rangeStepGo_fuel_congr (step : Nat) :
    ∀ fuel fuel' start stop, stop - start ≤ fuel → stop - start ≤ fuel' →
      rangeStepGo fuel start stop step = rangeStepGo fuel' start stop step := by
  intro fuel
  induction fuel with
  | zero =>
    intro fuel' start stop h h'
    cases fuel' with
    | zero => rfl
    | succ k =>
      simp only [rangeStepGo]
      have : ¬ (start < stop ∧ 0 < step) := by omega
      rw [if_neg this]
  | succ k ih =>
    intro fuel' start stop h h'
    cases fuel' with
    | zero =>
      simp only [rangeStepGo]
      have : ¬ (start < stop ∧ 0 < step) := by omega
      rw [if_neg this]
    | succ k' =>
      simp only [rangeStepGo]
      by_cases hc : start < stop ∧ 0 < step
      · rw [if_pos hc, if_pos hc, ih k' (start + step) stop (by omega) (by omega)]
      · rw [if_neg hc, if_neg hc]

/-- One-step unfolding of `rangeStep` for positive step. -/
theorem rangeStep_eq (start stop step : Nat) (hstep : 0 < step) :
    rangeStep start stop step =
      if start < stop then start :: rangeStep (start + step) stop step else [] := by
  unfold rangeStep
  by_cases hlt : start < stop
  · rw [if_pos hlt]
    have h1 : 1 ≤ stop - start := by omega
    obtain ⟨m, hm⟩ : ∃ m, stop - start = m + 1 := ⟨stop - start - 1, by omega⟩
    rw [hm]
    simp only [rangeStepGo]
    rw [if_pos ⟨hlt, hstep⟩]
    congr 1
    exact rangeStepGo_fuel_congr step m (stop - (start + step)) (start + step) stop (by omega)
      (by omega)
  · rw [if_neg hlt]
    have h0 : stop - start = 0 := by omega
    rw [h0]
    rfl

/-- Empty range when the start is at or past the stop. -/
theorem rangeStep_nil (start stop step : Nat) (h : stop ≤ start) :
    rangeStep start stop step = [] := by
  unfold rangeStep
  have h0 : stop - start = 0 := by omega
  rw [h0]
  rfl

/-- Length of the range: the iteration count of
`for i in range(start, stop, step)` is `⌈(stop - start) / step⌉`. -/
theorem rangeStep_length (step : Nat) (hstep : 0 < step) :
    ∀ fuel start stop, stop - start ≤ fuel →
      (rangeStep start stop step).length = (stop - start + step - 1) / step := by
  intro fuel
  induction fuel with
  | zero =>
    intro start stop h
    rw [rangeStep_nil start stop step (by omega)]
    have h0 : stop - start = 0 := by omega
    rw [h0]
    simp [Nat.div_eq_of_lt (by omega : step - 1 < step)]
  | succ k ih =>
    intro start stop h
    rw [rangeStep_eq start stop step hstep]
    by_cases hlt : start < stop
    · rw [if_pos hlt]
      simp only [List.length_cons]
      rw [ih (start + step) stop (by omega)]
      have hm : 0 < stop - start := by omega
      by_cases hge : step ≤ stop - start
      · have e1 : stop - start + step - 1 = (stop - (start + step) + step - 1) + step := by omega
        rw [e1, Nat.add_div_right _ hstep]
      · have e2 : stop - (start + step) = 0 := by omega
        rw [e2]
        have e3 : stop - start + step - 1 = (stop - start - 1) + step := by omega
        rw [e3, Nat.add_div_right _ hstep]
        rw [Nat.div_eq_of_lt (by omega : stop - start - 1 < step)]
        rw [Nat.div_eq_of_lt (by omega : 0 + step - 1 < step)]
    · rw [if_neg hlt]
      have h0 : stop - start = 0 := by omega
      rw [h0]
      have hd : (step - 1) / step = 0 := Nat.div_eq_of_lt (by omega)
      simp [hd]

/-- Shifting a range by a constant shifts every index. -/
theorem rangeStep_shift (step : Nat) (hstep : 0 < step) :
    ∀ fuel start stop k, stop - start ≤ fuel →
      rangeStep (start + k) (stop + k) step =
        (rangeStep start stop step).map (fun x => x + k) := by
  intro fuel
  induction fuel with
  | zero =>
    intro start stop k h
    rw [rangeStep_nil start stop step (by omega), rangeStep_nil (start + k) (stop + k) step
      (by omega)]
    rfl
  | succ n ih =>
    intro start stop k h
    rw [rangeStep_eq start stop step hstep, rangeStep_eq (start + k) (stop + k) step hstep]
    by_cases hlt : start < stop
    · rw [if_pos hlt, if_pos (by omega : start + k < stop + k)]
      simp only [List.map_cons]
      have e : start + k + step = start + step + k := by omega
      rw [e, ih (start + step) stop k (by omega)]
    · rw [if_neg hlt, if_neg (by omega : ¬ start + k < stop + k)]
      rfl

/-- The windows of the empty token list: none. -/
theorem tokenWindows_nil (step : Nat) : tokenWindows step [] = [] := by
  unfold tokenWindows
  simp only [List.length_nil]
  rw [rangeStep_nil 0 0 step (le_refl 0)]
  rfl

/-- Recursive characterization of the token windows: the first window is the
first `step` tokens, the rest are the windows of the remainder. -/
theorem tokenWindows_eq_cons (step : Nat) (hstep : 0 < step) (ts : List Nat) (hts : ts ≠ []) :
    tokenWindows step ts = ts.take step :: tokenWindows step (ts.drop step) := by
  unfold tokenWindows
  have hlen : 0 < ts.length := List.length_pos.mpr hts
  rw [rangeStep_eq 0 ts.length step hstep, if_pos hlen]
  simp only [List.map_cons, List.drop_zero]
  congr 1
  by_cases hle : step ≤ ts.length
  · have h1 : (ts.drop step).length = ts.length - step := by simp
    rw [h1]
    have h2 : rangeStep (0 + step) ts.length step
        = (rangeStep 0 (ts.length - step) step).map (fun x => x + step) := by
      have h3 := rangeStep_shift step hstep (ts.length - step) 0 (ts.length - step) step
        (by omega)
      rw [(by omega : ts.length - step + step = ts.length)] at h3
      exact h3
    rw [h2, List.map_map]
    apply List.map_congr_left
    intro i _
    simp [List.drop_drop, Nat.add_comm]
  · have h1 : rangeStep (0 + step) ts.length step = [] := rangeStep_nil _ _ _ (by omega)
    have h2 : (ts.drop step).length = 0 := by simp; omega
    rw [h1, h2, rangeStep_nil 0 0 step (le_refl 0)]
    rfl

/-- Concatenating the token windows in order restores the token list:
the windows are an ordered partition of the input tokens. -/
theorem tokenWindows_flatten (step : Nat) (hstep : 0 < step) :
    ∀ fuel ts, List.length ts ≤ fuel → (tokenWindows step ts).flatten = ts := by
  intro fuel
  induction fuel with
  | zero =>
    intro ts h
    have hnil : ts = [] := List.eq_nil_of_length_eq_zero (by omega)
    rw [hnil, tokenWindows_nil]
    rfl
  | succ k ih =>
    intro ts h
    by_cases hts : ts = []
    · rw [hts, tokenWindows_nil]
      rfl
    · rw [tokenWindows_eq_cons step hstep ts hts]
      have hlen : 0 < ts.length := List.length_pos.mpr hts
      have hdrop : (ts.drop step).length ≤ k := by
        simp only [List.length_drop]
        omega
      rw [List.flatten_cons, ih (ts.drop step) hdrop, List.take_append_drop]

/-- Every token window has at most `step` tokens. -/
theorem tokenWindows_le (step : Nat) (ts : List Nat) :
    ∀ w ∈ tokenWindows step ts, w.length ≤ step := by
  intro w hw
  unfold tokenWindows at hw
  obtain ⟨i, _, rfl⟩ := List.mem_map.mp hw
  rw [List.length_take]
  exact min_le_left _ _

/-- Chunk count of `split_text_into_chunks`:
`⌈tokenCount(text) / chunk_size⌉` for positive chunk size. -/
theorem split_chunks_count (enc : String → List Nat) (dec : List Nat → String)
    (text : String) (cs : Nat) (h : 0 < cs) :
    (split_text_into_chunks enc dec text cs).length = ((enc text).length + cs - 1) / cs := by
  unfold split_text_into_chunks tokenWindows
  rw [List.length_map, List.length_map]
  rw [rangeStep_length cs h (enc text).length 0 (enc text).length (by omega)]
  simp

/-- If every attempt index below `retries` fails, the loop over the attempt
indices `a, a+1, ..., retries-1` ends by returning the empty string. -/
theorem query_loop_all_err (oracle : Nat → Outcome) (retries : Nat)
    (herr : ∀ i, i < retries → oracle i = Outcome.err) :
    ∀ n a, a + n = retries → 0 < n →
      (query_loop oracle retries (List.range' a n)).1 = some "" := by
  intro n
  induction n with
  | zero => intro a _ hn; omega
  | succ k ih =>
    intro a h _
    rw [List.range'_succ]
    simp only [query_loop]
    rw [herr a (by omega)]
    cases k with
    | zero =>
      have : ¬ a < retries - 1 := by omega
      rw [if_neg this]
    | succ k' =>
      have : a < retries - 1 := by omega
      rw [if_pos this]
      exact ih (a + 1) (by omega) (by omega)

/-- With at least one attempt, every path through the loop returns a string
(either a response or the empty-string failure marker). -/
theorem query_loop_isSome (oracle : Nat → Outcome) (retries : Nat) :
    ∀ n a, a + n = retries → 0 < n →
      ((query_loop oracle retries (List.range' a n)).1).isSome = true := by
  intro n
  induction n with
  | zero => intro a _ hn; omega
  | succ k ih =>
    intro a h _
    rw [List.range'_succ]
    simp only [query_loop]
    cases horc : oracle a with
    | ok s => rfl
    | err =>
      cases k with
      | zero =>
        have : ¬ a < retries - 1 := by omega
        rw [if_neg this]
        rfl
      | succ k' =>
        have : a < retries - 1 := by omega
        rw [if_pos this]
        exact ih (a + 1) (by omega) (by omega)

/-- Claim C5 - confirmed.  For every prompt and every retries count of at
least 1, if every attempt fails with a transport error
(`requests.RequestException`), `query_ollama` returns the empty string
rather than propagating the exception: the final attempt's handler logs and
returns `""` instead of re-raising. -/
theorem query_ollama_exhausted_returns_empty_string (oracle : Nat → Outcome)
    (prompt : String) (retries : Nat) (h1 : 1 ≤ retries)
    (h2 : ∀ i, i < retries → oracle i = Outcome.err) :
    (query_ollama oracle prompt retries).1 = some "" := by
  unfold query_ollama
  rw [List.range_eq_range']
  exact query_loop_all_err oracle retries h2 retries 0 (by omega) (by omega)

/-- Witness for C5 at `retries = 3` with an always-failing oracle. -/
theorem query_ollama_exhausted_returns_empty_string_witness :
    (query_ollama (fun _ => Outcome.err) "why is the sky blue" 3).1 = some "" :=
  query_ollama_exhausted_returns_empty_string (fun _ => Outcome.err) "why is the sky blue" 3
    (by omega) (fun i _ => rfl)

/-- Claim C9 - confirmed.  `query_ollama` with `retries = 0` falls through
the `for attempt in range(retries)` loop without executing its body and
returns Python's implicit `None` (modelled as `none`), with no logs and no
sleeps; for every `retries ≥ 1` the result is a string (`some _`). -/
theorem query_ollama_zero_retries_none_else_string :
    (∀ oracle prompt, query_ollama oracle prompt 0 = (none, [], [])) ∧
    (∀ oracle prompt retries, 1 ≤ retries →
      ((query_ollama oracle prompt retries).1).isSome = true) := by
  constructor
  · intro oracle prompt
    rfl
  · intro oracle prompt retries h1
    unfold query_ollama
    rw [List.range_eq_range']
    exact query_loop_isSome oracle retries retries 0 (by omega) (by omega)

/-- Witness for C9: the `retries = 0` edge and a `retries = 3` run both
conclude from the theorem at concrete inputs. -/
theorem query_ollama_zero_retries_none_else_string_witness :
    query_ollama (fun _ => Outcome.err) "p" 0 = (none, [], []) ∧
    ((query_ollama (fun _ => Outcome.err) "p" 3).1).isSome = true :=
  ⟨query_ollama_zero_retries_none_else_string.1 (fun _ => Outcome.err) "p",
   query_ollama_zero_retries_none_else_string.2 (fun _ => Outcome.err) "p" 3 (by omega)⟩

/-- Oracle for the C3 scenario: attempts 1 and 2 (indices 0 and 1) fail with
a transport error, attempt 3 (index 2) succeeds. -/
def orcFFS : Nat → Outcome := fun n => if n < 2 then Outcome.err else Outcome.ok "answer"

/-- Counterexample to claim C3 as stated: in the fail/fail/success scenario
with the default 3 attempts, the delay before the 2nd attempt is
`2 ** 0 = 1` second and the delay before the 3rd is `2 ** 1 = 2` seconds -
and `1 < 2`, so the claimed lower bounds (≥ 2s, then ≥ 4s) are violated;
moreover only the two failures are logged, not all three outcomes. -/
theorem retry_backoff_first_delay_is_one_second :
    query_ollama orcFFS "p" 3 =
      (some "answer", [LogEvent.warnFail 1, LogEvent.warnFail 2], [1, 2]) ∧ (1 : Nat) < 2 :=
  ⟨rfl, by omega⟩

/-- Claim C3 - amended.  In the default-3-attempts scenario where attempts 1
and 2 fail with a transport error and attempt 3 succeeds with text `s`,
`query_ollama` returns `s`, logs a warning for each of the two failed
attempts (the successful attempt logs nothing), and sleeps `2 ** 0 = 1`
second before the 2nd attempt and `2 ** 1 = 2` seconds before the 3rd
(exponential backoff with base 1 second, doubling per retry). -/
theorem query_ollama_fail_fail_success (oracle : Nat → Outcome) (prompt s : String)
    (h0 : oracle 0 = Outcome.err) (h1 : oracle 1 = Outcome.err)
    (h2 : oracle 2 = Outcome.ok s) :
    query_ollama oracle prompt 3 =
      (some s, [LogEvent.warnFail 1, LogEvent.warnFail 2], [1, 2]) := by
  unfold query_ollama
  have hr : List.range 3 = [0, 1, 2] := rfl
  rw [hr]
  simp only [query_loop, h0, h1, h2]
  norm_num

/-- Witness for the amended C3 at the concrete fail/fail/success oracle. -/
theorem query_ollama_fail_fail_success_witness :
    query_ollama orcFFS "prompt" 3 =
      (some "answer", [LogEvent.warnFail 1, LogEvent.warnFail 2], [1, 2]) :=
  query_ollama_fail_fail_success orcFFS "prompt" "answer" rfl rfl rfl

/-- A concrete stand-in tokenizer for witnesses: one token per character
(any encode/decode pair can instantiate the parameterized theorems). -/
def enc0 : String → List Nat := fun s => s.data.map Char.toNat

/-- Decoder matching `enc0`. -/
def dec0 : List Nat → String := fun ts => String.mk (ts.map Char.ofNat)

/-- Claim C6 - confirmed.  For every tokenizer, text and positive chunk
size, `split_text_into_chunks` returns exactly
`⌈tokenCount(text) / chunk_size⌉` chunks; a text encoding to no tokens (in
particular the empty text, which `tiktoken` encodes to `[]`) yields no
chunks, and a text with between 1 and `chunk_size` tokens yields exactly one
chunk. -/
theorem split_text_into_chunks_count (enc : String → List Nat) (dec : List Nat → String)
    (text : String) (chunk_size : Nat) (h : 0 < chunk_size) :
    (split_text_into_chunks enc dec text chunk_size).length
        = ((enc text).length + chunk_size - 1) / chunk_size ∧
    (enc text = [] → split_text_into_chunks enc dec text chunk_size = []) ∧
    (0 < (enc text).length → (enc text).length ≤ chunk_size →
      (split_text_into_chunks enc dec text chunk_size).length = 1) := by
  refine ⟨split_chunks_count enc dec text chunk_size h, ?_, ?_⟩
  · intro he
    unfold split_text_into_chunks
    rw [he, tokenWindows_nil]
    rfl
  · intro h1 h2
    rw [split_chunks_count enc dec text chunk_size h]
    have e : (enc text).length + chunk_size - 1 = ((enc text).length - 1) + chunk_size := by
      omega
    rw [e, Nat.add_div_right _ h, Nat.div_eq_of_lt (by omega)]

/-- Witness for C6 at the concrete tokenizer, the empty text and a 4-token
text with chunk size 3. -/
theorem split_text_into_chunks_count_witness :
    ((split_text_into_chunks enc0 dec0 "note" 3).length = ((enc0 "note").length + 3 - 1) / 3 ∧
      (enc0 "note" = [] → split_text_into_chunks enc0 dec0 "note" 3 = []) ∧
      (0 < (enc0 "note").length → (enc0 "note").length ≤ 3 →
        (split_text_into_chunks enc0 dec0 "note" 3).length = 1)) ∧
    (enc0 "" = [] → split_text_into_chunks enc0 dec0 "" 3 = []) :=
  ⟨split_text_into_chunks_count enc0 dec0 "note" 3 (by omega),
   (split_text_into_chunks_count enc0 dec0 "" 3 (by omega)).2.1⟩

/-- Claim C7 - confirmed.  For every tokenizer, text and positive chunk
size, the chunks are the decodes of the token windows, the windows
concatenated in output order restore the encoded token sequence exactly
(each input token is in exactly one window, windows are non-overlapping and
in source order), and each window holds at most `chunk_size` tokens. -/
theorem split_windows_partition (enc : String → List Nat) (dec : List Nat → String)
    (text : String) (chunk_size : Nat) (h : 0 < chunk_size) :
    split_text_into_chunks enc dec text chunk_size
        = (tokenWindows chunk_size (enc text)).map dec ∧
    (tokenWindows chunk_size (enc text)).flatten = enc text ∧
    (∀ w ∈ tokenWindows chunk_size (enc text), w.length ≤ chunk_size) :=
  ⟨rfl,
   tokenWindows_flatten chunk_size h (enc text).length (enc text) (le_refl _),
   tokenWindows_le chunk_size (enc text)⟩

/-- Witness for C7 at the concrete tokenizer with a 5-token text and chunk
size 2. -/
theorem split_windows_partition_witness :
    split_text_into_chunks enc0 dec0 "hello" 2
        = (tokenWindows 2 (enc0 "hello")).map dec0 ∧
    (tokenWindows 2 (enc0 "hello")).flatten = enc0 "hello" ∧
    (∀ w ∈ tokenWindows 2 (enc0 "hello"), w.length ≤ 2) :=
  split_windows_partition enc0 dec0 "hello" 2 (by omega)

/-- Whether `pat` occurs as a contiguous run inside `l` (Python's
`pat in text` on strings, at the character-list level). -/
def occursWithin (pat : List Char) : List Char → Bool
  | [] => pat.isEmpty
  | c :: cs => pat.isPrefixOf (c :: cs) || occursWithin pat cs

/-- A 300-character merged summary used to exhibit the C1 divergence (longer
than either fixed prompt, so it cannot occur inside them). -/
def bigSummary : String := String.mk (List.replicate 300 'S')

/-- Gateway stub returning `bigSummary` for every prompt. -/
def gwBig : String → String := fun _ => bigSummary

set_option maxRecDepth 4000 in
/-- Claim C1 - the code diverges from it.  At a one-chunk document, the
prompt trace of `analyze_content` is exactly one summarization prompt
followed by the fixed quiz prompt and the fixed concept prompt (each issued
exactly once), the merged summary is the (non-empty) per-chunk response -
yet that merged summary does not occur inside the quiz prompt or the concept
prompt: lines 183-187 and 197-201 never concatenate the summary (or any
document text) into the prompts, while both say "Based on the content" /
"from the content". -/
theorem quiz_concept_prompts_lack_summary :
    (analyze_content enc0 dec0 gwBig "AB").prompts
        = [summaryPromptFor "AB", quizPromptText, conceptPromptText] ∧
    (analyze_content enc0 dec0 gwBig "AB").summary_data.summary = bigSummary ∧
    0 < bigSummary.length ∧
    occursWithin bigSummary.data quizPromptText.data = false ∧
    occursWithin bigSummary.data conceptPromptText.data = false :=
  ⟨rfl, rfl, by decide, by decide, by decide⟩

/-- Claim C2 - amended.  For a document whose text encodes to zero tokens
(hence zero chunks), `analyze_content` makes no summarization calls and
returns the summary record `{summary: "", length: 0, chunks_processed: 0}` -
but it still issues the quiz and the concept Gateway requests (2 calls, the
fixed prompts), and the quiz/concept results are the coerced responses
rather than empty collections. -/
theorem analyze_content_empty (enc : String → List Nat) (dec : List Nat → String)
    (gw : String → String) (hemp : enc "" = []) :
    analyze_content enc dec gw "" =
      { summary_data := { summary := "", length := 0, chunks_processed := 0 }
        quiz_questions := coerce_quiz (gw quizPromptText)
        concepts := coerce_concepts (gw conceptPromptText)
        prompts := [quizPromptText, conceptPromptText] } := by
  unfold analyze_content split_text_into_chunks
  rw [hemp, tokenWindows_nil]
  rfl

/-- Witness for the amended C2 at the concrete tokenizer and a constant
gateway answering a non-JSON string. -/
theorem analyze_content_empty_witness :
    analyze_content enc0 dec0 (fun _ => "resp") "" =
      { summary_data := { summary := "", length := 0, chunks_processed := 0 }
        quiz_questions := coerce_quiz "resp"
        concepts := coerce_concepts "resp"
        prompts := [quizPromptText, conceptPromptText] } :=
  analyze_content_empty enc0 dec0 (fun _ => "resp") rfl

/-- Counterexample to claim C2 as stated: on the empty document the code
still performs 2 Gateway calls (the quiz and concept requests), not zero,
and the quiz collection is the single fallback record, not empty. -/
theorem empty_document_still_issues_two_gateway_calls :
    (analyze_content enc0 dec0 (fun _ => "resp") "").prompts.length = 2 ∧
    (analyze_content enc0 dec0 (fun _ => "resp") "").quiz_questions
        = Json.arr [Json.obj [("question", Json.str "resp"), ("options", Json.arr []),
            ("correct_answer", Json.str "")]] ∧
    (0 : Nat) < 2 :=
  ⟨rfl, rfl, by omega⟩

/-- Claim C4 - amended.  The coercion step never fails: when `json.loads`
raises, the result is exactly the single-element fallback collection
carrying the raw text in the primary field with empty/default other fields;
when parsing succeeds, the parsed value is returned verbatim with no shape
check at all - so an incompatible shape (a bare number, a string, an object)
is passed through unchanged and an empty collection can be returned. -/
theorem coerce_verbatim_or_fallback (raw : String) :
    (json_loads raw = none →
      coerce_quiz raw = Json.arr [Json.obj [("question", Json.str raw),
          ("options", Json.arr []), ("correct_answer", Json.str "")]] ∧
      coerce_concepts raw = Json.arr [Json.obj [("term", Json.str raw),
          ("category", Json.str "uncategorized")]]) ∧
    (∀ v, json_loads raw = some v → coerce_quiz raw = v ∧ coerce_concepts raw = v) := by
  constructor
  · intro h
    unfold coerce_quiz coerce_concepts
    rw [h]
    exact ⟨rfl, rfl⟩
  · intro v h
    unfold coerce_quiz coerce_concepts
    rw [h]
    exact ⟨rfl, rfl⟩

/-- Witness for the amended C4: the fallback branch at a non-JSON raw string
and the verbatim branch at `"[]"`. -/
theorem coerce_verbatim_or_fallback_witness :
    (coerce_quiz "not json" = Json.arr [Json.obj [("question", Json.str "not json"),
        ("options", Json.arr []), ("correct_answer", Json.str "")]] ∧
      coerce_concepts "not json" = Json.arr [Json.obj [("term", Json.str "not json"),
        ("category", Json.str "uncategorized")]]) ∧
    (coerce_quiz "[]" = Json.arr [] ∧ coerce_concepts "[]" = Json.arr []) :=
  ⟨(coerce_verbatim_or_fallback "not json").1 rfl,
   (coerce_verbatim_or_fallback "[]").2 (Json.arr []) rfl⟩

/-- Counterexample to claim C4 as stated: `"[]"` parses successfully, so the
coercion returns the empty collection (violating "never yields an empty
collection"), and `"42"` parses to a bare number which is returned verbatim
although it is not a collection of records with the required fields
(violating the claimed shape check). -/
theorem coercion_can_yield_empty_or_shapeless :
    coerce_quiz "[]" = Json.arr [] ∧
    coerce_concepts "[]" = Json.arr [] ∧
    coerce_quiz "42" = Json.num "42" :=
  ⟨rfl, rfl, rfl⟩

/-- The three artifact paths for one stem are pairwise distinct (their
suffix lengths 13, 10, 14 differ). -/
theorem artifact_paths_distinct (rdir stem : String) :
    summary_path rdir stem ≠ quiz_path rdir stem ∧
    summary_path rdir stem ≠ concept_path rdir stem ∧
    quiz_path rdir stem ≠ concept_path rdir stem := by
  have l1 : ("_summary.json" : String).length = 13 := rfl
  have l2 : ("_quiz.json" : String).length = 10 := rfl
  have l3 : ("_concepts.json" : String).length = 14 := rfl
  refine ⟨fun h => ?_, fun h => ?_, fun h => ?_⟩ <;>
  · have hl := congrArg String.length h
    simp only [summary_path, quiz_path, concept_path, String.length_append, l1, l2, l3] at hl
    omega

/-- After `process_files` writes the three artifacts for a stem, the
completeness check for that stem is true. -/
theorem check_after_write (rdir : String) (fs : Store) (stem : String) (r : AnalysisResult) :
    check_existing_results rdir (write_results rdir fs stem r) stem = true := by
  obtain ⟨h12, h13, h23⟩ := artifact_paths_distinct rdir stem
  unfold check_existing_results write_results
  rw [if_pos rfl]
  rw [if_neg (Ne.symm h12), if_pos rfl]
  rw [if_neg (Ne.symm h13), if_neg (Ne.symm h23), if_pos rfl]
  rfl

/-- A run over documents that all already have complete artifacts leaves the
store unchanged and issues no gateway calls. -/
theorem process_files_all_complete (enc : String → List Nat) (dec : List Nat → String)
    (gw : String → String) (rdir : String) (readFile : MdFile → String) :
    ∀ files fs, (∀ f ∈ files, check_existing_results rdir fs f.stem = true) →
      process_files enc dec gw rdir readFile files fs = (fs, []) := by
  intro files
  induction files with
  | nil => intro fs _; rfl
  | cons f rest ih =>
    intro fs hall
    simp only [process_files]
    rw [hall f (List.mem_cons_self f rest)]
    simp only [if_true]
    exact ih fs (fun g hg => hall g (List.mem_cons_of_mem f hg))

/-- Claim C8 - confirmed.  The completeness check is true iff all three
artifact files for the stem exist (so any partial set counts as incomplete
and leads to regeneration of all three), and a run over a document set whose
members all have complete artifacts skips every document: the store is
unchanged and zero Gateway calls are made - in particular a second run after
a complete first run adds no calls. -/
theorem completeness_check_iff_and_second_run_free :
    (∀ (rdir : String) (fs : Store) (stem : String),
      check_existing_results rdir fs stem = true ↔
        ((fs (summary_path rdir stem)).isSome = true ∧
         (fs (quiz_path rdir stem)).isSome = true ∧
         (fs (concept_path rdir stem)).isSome = true)) ∧
    (∀ (enc : String → List Nat) (dec : List Nat → String) (gw : String → String)
        (rdir : String) (readFile : MdFile → String) (files : List MdFile) (fs : Store),
      (∀ f ∈ files, check_existing_results rdir fs f.stem = true) →
      process_files enc dec gw rdir readFile files fs = (fs, [])) ∧
    (∀ (enc : String → List Nat) (dec : List Nat → String) (gw : String → String)
        (rdir : String) (readFile : MdFile → String) (f : MdFile) (fs : Store),
      check_existing_results rdir fs f.stem = false → ¬ readFile f = "" →
      check_existing_results rdir
        (process_files enc dec gw rdir readFile [f] fs).1 f.stem = true) := by
  refine ⟨?_, ?_, ?_⟩
  · intro rdir fs stem
    unfold check_existing_results
    rw [Bool.and_eq_true, Bool.and_eq_true]
    tauto
  · intro enc dec gw rdir readFile files fs hall
    exact process_files_all_complete enc dec gw rdir readFile files fs hall
  · intro enc dec gw rdir readFile f fs hchk hcontent
    simp only [process_files]
    rw [hchk]
    simp only [Bool.false_eq_true, if_false]
    rw [if_neg hcontent]
    exact check_after_write rdir fs f.stem (analyze_content enc dec gw (readFile f))

/-- A store in which every file exists, for the C8 witness. -/
def fsFull : Store := fun _ => some (Stored.doc Json.null)

/-- The empty results store. -/
def fs0 : Store := fun _ => none

/-- A markdown file at the top of the notes directory with stem `x`. -/
def fX : MdFile := { parent := [], stem := "x" }

/-- A markdown file at the top of the notes directory with stem `y`. -/
def fY : MdFile := { parent := [], stem := "y" }

/-- Witness for C8: the iff at a concrete store/stem, and a skipped run over
one document whose artifacts all exist. -/
theorem completeness_check_iff_and_second_run_free_witness :
    (check_existing_results "res" fsFull "x" = true ↔
      ((fsFull (summary_path "res" "x")).isSome = true ∧
       (fsFull (quiz_path "res" "x")).isSome = true ∧
       (fsFull (concept_path "res" "x")).isSome = true)) ∧
    process_files enc0 dec0 (fun _ => "resp") "res" (fun _ => "text")
      [{ parent := [], stem := "x" }] fsFull = (fsFull, []) ∧
    check_existing_results "res"
      (process_files enc0 dec0 (fun _ => "resp") "res" (fun _ => "doc")
        [{ parent := [], stem := "y" }] fs0).1 "y" = true :=
by
  refine ⟨completeness_check_iff_and_second_run_free.1 "res" fsFull "x",
    completeness_check_iff_and_second_run_free.2.1 enc0 dec0 (fun _ => "resp") "res"
      (fun _ => "text") [{ parent := [], stem := "x" }] fsFull (fun _ _ => rfl),
    completeness_check_iff_and_second_run_free.2.2 enc0 dec0 (fun _ => "resp") "res"
      (fun _ => "doc") { parent := [], stem := "y" } fs0 ?_ ?_⟩
  · decide
  · decide

/-- Processing two files with the same stem in one run, starting without
complete artifacts: the first file's analysis is written, and the second
file is then skipped, because the completeness check sees the artifacts the
first file just produced. -/
theorem process_files_pair_same_stem (enc : String → List Nat) (dec : List Nat → String)
    (gw : String → String) (rdir : String) (readFile : MdFile → String) (f1 f2 : MdFile)
    (fs : Store) (hstem : f1.stem = f2.stem)
    (hchk : check_existing_results rdir fs f1.stem = false)
    (hcontent : ¬ readFile f1 = "") :
    process_files enc dec gw rdir readFile [f1, f2] fs =
      (write_results rdir fs f1.stem (analyze_content enc dec gw (readFile f1)),
       (analyze_content enc dec gw (readFile f1)).prompts) := by
  simp only [process_files]
  rw [hchk]
  simp only [Bool.false_eq_true, if_false]
  rw [if_neg hcontent]
  have h2 : check_existing_results rdir
      (write_results rdir fs f1.stem (analyze_content enc dec gw (readFile f1))) f2.stem
      = true := by
    rw [← hstem]
    exact check_after_write rdir fs f1.stem (analyze_content enc dec gw (readFile f1))
  rw [h2]
  simp

/-- Claim C10 - amended.  Artifact paths are keyed by the stem alone, with
directory components discarded, so two notes files with equal stems in
different subdirectories use the same three artifact paths; if complete
artifacts exist beforehand both are skipped - but when they do not, the
earlier-processed file's results are written and the later file is then
skipped by the completeness check (which now sees the earlier file's fresh
artifacts), so the later file's results never overwrite the earlier
file's. -/
theorem duplicate_stems_share_paths_first_file_wins (enc : String → List Nat)
    (dec : List Nat → String) (gw : String → String) (rdir : String)
    (readFile : MdFile → String) (f1 f2 : MdFile) (fs : Store)
    (hstem : f1.stem = f2.stem)
    (hchk : check_existing_results rdir fs f1.stem = false)
    (hcontent : ¬ readFile f1 = "") :
    (summary_path rdir f1.stem = summary_path rdir f2.stem ∧
     quiz_path rdir f1.stem = quiz_path rdir f2.stem ∧
     concept_path rdir f1.stem = concept_path rdir f2.stem) ∧
    process_files enc dec gw rdir readFile [f1, f2] fs =
      (write_results rdir fs f1.stem (analyze_content enc dec gw (readFile f1)),
       (analyze_content enc dec gw (readFile f1)).prompts) :=
  ⟨⟨by rw [hstem], by rw [hstem], by rw [hstem]⟩,
   process_files_pair_same_stem enc dec gw rdir readFile f1 f2 fs hstem hchk hcontent⟩

/-- Two notes files with the same stem `x` in different subdirectories, with
different contents, for the C10 scenario. -/
def readFileAB : MdFile → String := fun f => if f.parent = ["a"] then "A" else "BB"

/-- Witness for the amended C10 at the concrete two-file scenario. -/
theorem duplicate_stems_share_paths_first_file_wins_witness :
    (summary_path "res" (MdFile.mk ["a"] "x").stem
        = summary_path "res" (MdFile.mk ["b"] "x").stem ∧
     quiz_path "res" (MdFile.mk ["a"] "x").stem
        = quiz_path "res" (MdFile.mk ["b"] "x").stem ∧
     concept_path "res" (MdFile.mk ["a"] "x").stem
        = concept_path "res" (MdFile.mk ["b"] "x").stem) ∧
    process_files enc0 dec0 (fun _ => "resp") "res" readFileAB
        [MdFile.mk ["a"] "x", MdFile.mk ["b"] "x"] fs0 =
      (write_results "res" fs0 (MdFile.mk ["a"] "x").stem
        (analyze_content enc0 dec0 (fun _ => "resp") (readFileAB (MdFile.mk ["a"] "x"))),
       (analyze_content enc0 dec0 (fun _ => "resp") (readFileAB (MdFile.mk ["a"] "x"))).prompts) :=
  duplicate_stems_share_paths_first_file_wins enc0 dec0 (fun _ => "resp") "res" readFileAB
    (MdFile.mk ["a"] "x") (MdFile.mk ["b"] "x") fs0 rfl rfl (by decide)

/-- Counterexample to claim C10 as stated: in the two-file run over
`a/x.md` (content `"A"`, length 1) and `b/x.md` (content `"BB"`, length 2)
with no prior artifacts, the persisted summary record carries length 1 -
the earlier file's result - while the later file's analysis would carry
length 2: the later-processed file did not overwrite the earlier one, it
was skipped. -/
theorem later_duplicate_stem_results_do_not_overwrite :
    (process_files enc0 dec0 (fun _ => "resp") "res" readFileAB
        [MdFile.mk ["a"] "x", MdFile.mk ["b"] "x"] fs0).1 (summary_path "res" "x")
      = some (Stored.summ { summary := "resp", length := 1, chunks_processed := 1 }) ∧
    (analyze_content enc0 dec0 (fun _ => "resp")
        (readFileAB (MdFile.mk ["b"] "x"))).summary_data
      = { summary := "resp", length := 2, chunks_processed := 1 } ∧
    (1 : Nat) < 2 :=
  ⟨rfl, rfl, by omega⟩
